import Mathlib

/-!
Verification of the StorySense rating app (`StorySense.py`).

The program is a single-file Streamlit UI: a `RatingApp` class whose session
state holds the loaded evaluation dataset, the current navigation index, and
an accumulated map of ratings.  We embed the JSON-like payloads, the session
state, and the operations of the app (loading, navigation, saving a rating,
progress, export) as pure Lean functions, translating each method of the
source file, and prove the specification claims about them.
-/

namespace StorySense

/-- JSON-compatible values: the payloads consumed by the upload path and the
documents produced by `export_ratings`.  Numbers are integers (all numeric
fields of the app are Likert scores or counts). -/
inductive Json where
  | null : Json
  | bool : Bool → Json
  | num : Int → Json
  | str : String → Json
  | arr : List Json → Json
  | obj : List (String × Json) → Json
deriving Repr

/-- First-match lookup in an object's field list (Python `dict` access;
keys of a Python dict are unique, so first-match agrees with dict lookup). -/
def lookupField : List (String × Json) → String → Option Json
  | [], _ => none
  | (k, v) :: rest, key => if k = key then some v else lookupField rest key

/-- Keys of an object (empty for non-objects). -/
def Json.keys : Json → List String
  | .obj fields => fields.map Prod.fst
  | _ => []

/-- `st.session_state.evaluation_data.get('stories', [])` (lines 242 and 286):
requires the payload to be a mapping (a non-dict raises `AttributeError`,
modelled as `none`); a mapping without a `"stories"` key yields the default
`[]`; a `"stories"` value that is not a sequence cannot be indexed/iterated
(also `none`). -/
def storiesOf : Json → Option (List Json)
  | .obj fields =>
      match lookupField fields "stories" with
      | none => some []
      | some (.arr xs) => some xs
      | some _ => none
  | _ => none

/-- `current_story['story_id']` (line 310): `KeyError` when absent, modelled
as `none`; the app interpolates it into markdown, so we read it as a string. -/
def storyIdOf : Json → Option String
  | .obj fields =>
      match lookupField fields "story_id" with
      | some (.str s) => some s
      | _ => none
  | _ => none

/-- Scores collected by `render_invest_ratings` (lines 140-168): one slider
per INVEST facet, in the fixed order of the `facets` dict of the source. -/
structure InvestScores where
  independent : Int
  negotiable : Int
  valuable : Int
  estimable : Int
  small : Int
  testable : Int
deriving Repr, DecidableEq

/-- Scores collected by `render_quality_ratings` (lines 170-195). -/
structure QualityScores where
  readability : Int
  understandability : Int
  completeness : Int
deriving Repr, DecidableEq

/-- The dict built by `render_rating_form` (lines 96-138), in insertion
order: `arm_a`, `arm_a_quality`, `arm_a_preference`, `arm_b`,
`arm_b_quality`, `arm_b_preference`, `comments`, `winner`.  `winner` is the
value returned by `st.radio`, which is `None` only when the option list is
empty, hence an `Option`. -/
structure RatingRecord where
  arm_a : InvestScores
  arm_a_quality : QualityScores
  arm_a_preference : Int
  arm_b : InvestScores
  arm_b_quality : QualityScores
  arm_b_preference : Int
  comments : String
  winner : Option String
deriving Repr, DecidableEq

/-- `st.slider(label, 1, 5, 3, ...)`: the rater's stored value when the
widget was touched (kept inside the widget's range `[1,5]`), otherwise the
default `3`. -/
def slider (input : Option Int) : Int :=
  match input with
  | none => 3
  | some v => max 1 (min 5 v)

/-- `st.text_area(label, ...)`: the rater's text, default `""`. -/
def textArea (input : Option String) : String :=
  input.getD ""

/-- `st.radio(label, options, ...)`: the selected option; when untouched the
first option (index 0) is selected.  `None` only for an empty option list. -/
def radio (options : List String) (sel : Option Nat) : Option String :=
  options.get? (sel.getD 0)

/-- The four radio options of the final verdict (line 134). -/
def winnerOptions : List String :=
  ["A is better", "B is better", "Both are equal", "Both are poor"]

/-- Rater interaction with the six INVEST sliders of one arm; `none` means
the slider was never touched. -/
structure InvestInput where
  independent : Option Int := none
  negotiable : Option Int := none
  valuable : Option Int := none
  estimable : Option Int := none
  small : Option Int := none
  testable : Option Int := none
deriving Repr

/-- Rater interaction with the three quality sliders of one arm. -/
structure QualityInput where
  readability : Option Int := none
  understandability : Option Int := none
  completeness : Option Int := none
deriving Repr

/-- One rater's interaction with the whole form; the default value (all
`none`) is a rater who never touched any control. -/
structure FormInput where
  invest_a : InvestInput := {}
  quality_a : QualityInput := {}
  pref_a : Option Int := none
  invest_b : InvestInput := {}
  quality_b : QualityInput := {}
  pref_b : Option Int := none
  comments : Option String := none
  winner : Option Nat := none
deriving Repr

/-- `render_invest_ratings` (lines 140-168): six sliders, default 3. -/
def render_invest_ratings (inp : InvestInput) : InvestScores :=
  { independent := slider inp.independent
    negotiable := slider inp.negotiable
    valuable := slider inp.valuable
    estimable := slider inp.estimable
    small := slider inp.small
    testable := slider inp.testable }

/-- `render_quality_ratings` (lines 170-195): three sliders, default 3. -/
def render_quality_ratings (inp : QualityInput) : QualityScores :=
  { readability := slider inp.readability
    understandability := slider inp.understandability
    completeness := slider inp.completeness }

/-- `render_rating_form` (lines 96-138): builds the ratings dict from the
current widget states. -/
def render_rating_form (inp : FormInput) : RatingRecord :=
  { arm_a := render_invest_ratings inp.invest_a
    arm_a_quality := render_quality_ratings inp.quality_a
    arm_a_preference := slider inp.pref_a
    arm_b := render_invest_ratings inp.invest_b
    arm_b_quality := render_quality_ratings inp.quality_b
    arm_b_preference := slider inp.pref_b
    comments := textArea inp.comments
    winner := radio winnerOptions inp.winner }

/-- The session state of the app (`st.session_state` after
`init_session_state`): navigation index, accumulated ratings (a dict keyed
by `story_id`, embedded as an association list), the loaded-flag, the loaded
payload, and the rater name (`none` when the `rater_name` key is unset). -/
structure SessionState where
  current_idx : Nat
  ratings : List (String × RatingRecord)
  stories_loaded : Bool
  evaluation_data : Option Json
  rater_name : Option String
deriving Repr

/-- The state created by `init_session_state` (lines 22-29) in a fresh
session: index 0, empty ratings, nothing loaded. -/
def initialState : SessionState :=
  { current_idx := 0
    ratings := []
    stories_loaded := false
    evaluation_data := none
    rater_name := none }

/-- `load_evaluation_data` (lines 31-42) and the uploader path (lines
233-237): `parsed` is the outcome of reading and `json.load`-ing the payload
(`none` when that raises).  On a parse failure the method reports the error
and returns `False` with the session state untouched; on success it stores
the parsed document and sets the loaded flag — no validation of the
document's shape is performed. -/
def load_evaluation_data (s : SessionState) (parsed : Option Json) :
    Bool × SessionState :=
  match parsed with
  | none => (false, s)
  | some data =>
      (true, { s with evaluation_data := some data, stories_loaded := true })

/-- `save_ratings` (lines 197-199): Python dict assignment
`st.session_state.ratings[story_id] = ratings` — overwrite in place when the
key exists, append otherwise. -/
def insertRating (m : List (String × RatingRecord)) (k : String)
    (v : RatingRecord) : List (String × RatingRecord) :=
  if m.any (fun p => p.1 = k) then
    m.map (fun p => if p.1 = k then (k, v) else p)
  else
    m ++ [(k, v)]

/-- The progress numbers of the sidebar (lines 242-243):
`(rated, total)` with `total = len(evaluation_data.get('stories', []))`. -/
def progress (s : SessionState) : Nat × Nat :=
  (s.ratings.length,
   match s.evaluation_data with
   | none => 0
   | some d => ((storiesOf d).getD []).length)

/-- Line 244: `rated / total if total > 0 else 0`. -/
def ratedFraction (s : SessionState) : ℚ :=
  if (progress s).2 > 0 then
    ((progress s).1 : ℚ) / ((progress s).2 : ℚ)
  else 0

/-- Serialization of an INVEST dict, in insertion order of the `facets`
dict (lines 145-152). -/
def investToJson (r : InvestScores) : Json :=
  .obj [("Independent", .num r.independent),
        ("Negotiable", .num r.negotiable),
        ("Valuable", .num r.valuable),
        ("Estimable", .num r.estimable),
        ("Small", .num r.small),
        ("Testable", .num r.testable)]

/-- Serialization of a quality dict (lines 175-195). -/
def qualityToJson (q : QualityScores) : Json :=
  .obj [("readability", .num q.readability),
        ("understandability", .num q.understandability),
        ("completeness", .num q.completeness)]

/-- Serialization of one ratings dict, in its insertion order. -/
def ratingToJson (r : RatingRecord) : Json :=
  .obj [("arm_a", investToJson r.arm_a),
        ("arm_a_quality", qualityToJson r.arm_a_quality),
        ("arm_a_preference", .num r.arm_a_preference),
        ("arm_b", investToJson r.arm_b),
        ("arm_b_quality", qualityToJson r.arm_b_quality),
        ("arm_b_preference", .num r.arm_b_preference),
        ("comments", .str r.comments),
        ("winner", match r.winner with
                   | some w => .str w
                   | none => .null)]

/-- `export_ratings` (lines 201-211): the exported document, built from
reads of the session state only. -/
def export_ratings (s : SessionState) : Json :=
  .obj [("metadata",
          .obj [("total_rated", .num s.ratings.length),
                ("rater", .str (s.rater_name.getD "anonymous"))]),
        ("ratings", .obj (s.ratings.map fun p => (p.1, ratingToJson p.2)))]

/-- `export_ratings` as the app invokes it: a method reading the mutable
session state and returning a document, the state passed through. -/
def export_ratings_step (s : SessionState) : Json × SessionState :=
  (export_ratings s, s)

/-- One user interaction with the main content: a navigation click, a save
click (with the current widget states), or none (plain rerun). -/
inductive Event where
  | prev : Event
  | next : Event
  | save : FormInput → Event
  | idle : Event
deriving Repr

/-- What the main content (lines 257-328) shows for one interaction. -/
inductive RenderResult where
  | needUpload : RenderResult
  | emptyDataset : RenderResult
  | crash : RenderResult
  | browsing : String → RenderResult
deriving Repr, DecidableEq

/-- `prev` button (lines 296-298): decrement, clamped at 0. -/
def prevClick (s : SessionState) : SessionState :=
  if s.current_idx > 0 then { s with current_idx := s.current_idx - 1 } else s

/-- `next` button (lines 304-306): increment, clamped at `total - 1`. -/
def nextClick (s : SessionState) (total : Nat) : SessionState :=
  if s.current_idx < total - 1 then
    { s with current_idx := s.current_idx + 1 }
  else s

/-- The main-content logic of `run` (lines 257-328), for one interaction.
With nothing loaded it shows the upload hint (line 259).  Otherwise it reads
`evaluation_data.get('stories', [])` (crashing on a payload that is not a
mapping with a sequence there), shows "No stories found in data" for an
empty list (lines 288-290), else applies the navigation click, reads the
current story by index (line 309, `IndexError` out of range) and its
`story_id` (line 310), and on a save click stores the form's ratings dict
and auto-advances (lines 321-328). -/
def runMain (s : SessionState) (ev : Event) : RenderResult × SessionState :=
  if s.stories_loaded then
    match s.evaluation_data with
    | none => (.crash, s)
    | some d =>
        match storiesOf d with
        | none => (.crash, s)
        | some [] => (.emptyDataset, s)
        | some stories =>
            let s1 := match ev with
              | .prev => prevClick s
              | .next => nextClick s stories.length
              | _ => s
            match stories.get? s1.current_idx with
            | none => (.crash, s1)
            | some story =>
                match storyIdOf story with
                | none => (.crash, s1)
                | some sid =>
                    match ev with
                    | .save form =>
                        let r := render_rating_form form
                        let s2 := { s1 with ratings := insertRating s1.ratings sid r }
                        let s3 := if s2.current_idx < stories.length - 1 then
                            { s2 with current_idx := s2.current_idx + 1 }
                          else s2
                        (.browsing sid, s3)
                    | _ => (.browsing sid, s1)
  else (.needUpload, s)

/-- Field access on a document (`doc[key]` on a mapping, `none` otherwise). -/
def Json.field (j : Json) (key : String) : Option Json :=
  match j with
  | .obj fields => lookupField fields key
  | _ => none

/-- Lookup in the ratings dict (`st.session_state.ratings[story_id]`). -/
def lookupRating : List (String × RatingRecord) → String → Option RatingRecord
  | [], _ => none
  | (k, v) :: rest, key => if k = key then some v else lookupRating rest key

/-- The ratings dict produced by a sequence of `save_ratings` calls starting
from the empty dict of a fresh session. -/
def ratingsAfter (calls : List (String × RatingRecord)) :
    List (String × RatingRecord) :=
  calls.foldl (fun m c => insertRating m c.1 c.2) []

/-- The state transition of one `next` click (the app reruns after the
click; the state the rerun renders from). -/
def nextEvent (s : SessionState) : SessionState :=
  (runMain s .next).2

/-- A concrete story case with id "S1" (the spec's scenario input). -/
def exampleStory : Json :=
  .obj [("story_id", .str "S1"),
        ("original", .obj [("title", .str "t"), ("description", .str "d"),
                           ("ACs", .arr [.str "ac1"])]),
        ("arm_a", .obj [("story", .obj [("title", .str "ta"),
                                        ("description", .str "da")]),
                        ("ACs", .arr [.str "a1"])]),
        ("arm_b", .obj [("story", .obj [("title", .str "tb"),
                                        ("description", .str "db")]),
                        ("ACs", .arr [.str "b1"])])]

/-- A second concrete story case with id "S2". -/
def storyS2 : Json :=
  .obj [("story_id", .str "S2"),
        ("original", .obj [("title", .str "t2"), ("description", .str "d2"),
                           ("ACs", .arr [])]),
        ("arm_a", .obj [("story", .obj []), ("ACs", .arr [])]),
        ("arm_b", .obj [("story", .obj []), ("ACs", .arr [])])]

/-- A payload with the single story case "S1". -/
def examplePayload : Json := .obj [("stories", .arr [exampleStory])]

/-- A payload with the two story cases "S1" and "S2". -/
def twoStoryPayload : Json := .obj [("stories", .arr [exampleStory, storyS2])]

/-- A parseable payload that is not a mapping at all. -/
def nonMappingPayload : Json := .arr [.num 1]

/-- A fresh session after loading the single-story payload. -/
def exampleLoaded : SessionState :=
  (load_evaluation_data initialState (some examplePayload)).2

/-- The session after loading the two-story payload, clicking `next` (now at
index 1), and then re-loading the one-story payload. -/
def c2State : SessionState :=
  (load_evaluation_data
    (runMain (load_evaluation_data initialState (some twoStoryPayload)).2
      .next).2
    (some examplePayload)).2

/-! Theorems. -/

/-- Lookup in the serialized ratings object agrees with lookup in the
session's ratings dict, record by record. -/
theorem lookupField_map_rating (m : List (String × RatingRecord)) (k : String) :
    lookupField (m.map fun p => (p.1, ratingToJson p.2)) k
      = (lookupRating m k).map ratingToJson := by
  induction m with
  | nil => rfl
  | cons p rest ih =>
      simp only [List.map_cons, lookupField, lookupRating]
      by_cases h : p.1 = k
      · simp [h]
      · simp [h, ih]

/-- Claim C1, counterexample: with the single-story dataset already loaded, loading
a parseable payload that is not a mapping containing a stories sequence does
not fail (load returns success) and replaces the previously loaded dataset;
likewise a payload whose only case lacks a story_id loads successfully.  The
claimed DataFormatError rejection does not exist in the code. -/
theorem C1_load_counterexample :
    (load_evaluation_data exampleLoaded (some nonMappingPayload)).1 = true ∧
    (load_evaluation_data exampleLoaded (some nonMappingPayload)).2.evaluation_data
      = some nonMappingPayload ∧
    exampleLoaded.evaluation_data = some examplePayload ∧
    nonMappingPayload ≠ examplePayload ∧
    storiesOf nonMappingPayload = none ∧
    (load_evaluation_data initialState
        (some (Json.obj [("stories", Json.arr [Json.obj []])]))).1 = true := by
  refine ⟨rfl, rfl, rfl, fun h => ?_, rfl, rfl⟩
  simp only [nonMappingPayload, examplePayload] at h
  exact Json.noConfusion h

/-- Claim C1, amended: loading fails only when the payload cannot be read and
parsed at all; on such a failure the session state is left entirely
unchanged (failed loads are atomic).  Any parseable payload is accepted
without shape validation and replaces the dataset, leaving the ratings map
and the navigation index untouched. -/
theorem C1_load_atomic (s : SessionState) (d : Json) :
    (load_evaluation_data s none).1 = false ∧
    (load_evaluation_data s none).2 = s ∧
    (load_evaluation_data s (some d)).1 = true ∧
    (load_evaluation_data s (some d)).2.evaluation_data = some d ∧
    (load_evaluation_data s (some d)).2.ratings = s.ratings ∧
    (load_evaluation_data s (some d)).2.current_idx = s.current_idx :=
  ⟨rfl, rfl, rfl, rfl, rfl, rfl⟩

/-- Claim C2: with the two-story dataset loaded and the session at index 1, a
successful re-load of the one-story dataset keeps current_idx = 1, and the
next render then indexes the story list out of range (an IndexError in the
source, a crash here) instead of clamping. -/
theorem C2_reload_no_clamp :
    (runMain (load_evaluation_data initialState (some twoStoryPayload)).2
        .next).2.current_idx = 1 ∧
    c2State.current_idx = 1 ∧
    c2State.evaluation_data = some examplePayload ∧
    storiesOf examplePayload = some [exampleStory] ∧
    (runMain c2State .idle).1 = .crash :=
  ⟨rfl, rfl, rfl, rfl, rfl⟩

/-- Claim C3, counterexample: the rating form saved with no rater interaction has
winner "A is better" (the first radio option), not the "equal" pick the
claim suggests as the documented default. -/
theorem C3_winner_counterexample :
    (render_rating_form {}).winner = some "A is better" ∧
    (render_rating_form {}).winner ≠ some "Both are equal" ∧
    (render_rating_form {}).winner ≠ some "equal" := by
  refine ⟨rfl, ?_, ?_⟩ <;> decide

/-- Claim C3, amended: loading the single-story dataset and saving with no rater
interaction records for "S1" a record with all six INVEST scores of both
arms equal to 3, all quality scores 3, both preferences 3, empty comments,
and winner "A is better" (the first option of the four-way radio), never a
missing value. -/
theorem C3_default_record :
    (runMain exampleLoaded (.save {})).2.ratings =
      [("S1", { arm_a := ⟨3, 3, 3, 3, 3, 3⟩
                arm_a_quality := ⟨3, 3, 3⟩
                arm_a_preference := 3
                arm_b := ⟨3, 3, 3, 3, 3, 3⟩
                arm_b_quality := ⟨3, 3, 3⟩
                arm_b_preference := 3
                comments := ""
                winner := some "A is better" })] ∧
    (lookupRating (runMain exampleLoaded (.save {})).2.ratings "S1").map
        RatingRecord.winner = some (some "A is better") := by
  exact ⟨rfl, rfl⟩

/-- Claim C6: the exported document has exactly the keys metadata and ratings;
metadata has exactly the keys total_rated and rater; total_rated is the size
of the ratings dict; rater is the rater name, "anonymous" when unset; and
the ratings object has exactly the rated story_ids as keys, each mapped to
the serialization of the stored record, verbatim. -/
theorem C6_export_shape (s : SessionState) :
    (export_ratings s).keys = ["metadata", "ratings"] ∧
    ((export_ratings s).field "metadata").map Json.keys
      = some ["total_rated", "rater"] ∧
    ((export_ratings s).field "metadata").bind (fun m => m.field "total_rated")
      = some (.num s.ratings.length) ∧
    ((export_ratings s).field "metadata").bind (fun m => m.field "rater")
      = some (.str (s.rater_name.getD "anonymous")) ∧
    ((export_ratings s).field "ratings").map Json.keys
      = some (s.ratings.map Prod.fst) ∧
    ∀ k, ((export_ratings s).field "ratings").bind (fun r => r.field k)
      = (lookupRating s.ratings k).map ratingToJson := by
  refine ⟨rfl, rfl, rfl, rfl, ?_, ?_⟩
  · simp [export_ratings, Json.field, Json.keys, lookupField, List.map_map,
      Function.comp]
  · intro k
    simp [export_ratings, Json.field, lookupField, lookupField_map_rating]

/-- Claim C9: progress in a fresh session with no dataset loaded is (0, 0), its
rated fraction is 0, and whenever the total count is 0 the rated fraction is
0 rather than a division by zero. -/
theorem C9_progress (s : SessionState) :
    progress initialState = (0, 0) ∧
    ratedFraction initialState = 0 ∧
    ((progress s).2 = 0 → ratedFraction s = 0) := by
  refine ⟨rfl, ?_, fun h => ?_⟩
  · simp [ratedFraction, progress, initialState]
  · unfold ratedFraction
    rw [h]
    simp

/-- Claim C9 witness at the fresh session state. -/
theorem C9_progress_witness :
    progress initialState = (0, 0) ∧ ratedFraction initialState = 0 :=
  ⟨(C9_progress initialState).1, (C9_progress initialState).2.2 rfl⟩

/-- Claim C10: export is read-only — it returns the state unchanged in every
field, and two consecutive exports with no intervening mutation produce the
same document. -/
theorem C10_export_pure (s : SessionState) :
    (export_ratings_step s).2 = s ∧
    (export_ratings_step ((export_ratings_step s).2)).1
      = (export_ratings_step s).1 ∧
    (export_ratings_step s).2.current_idx = s.current_idx ∧
    (export_ratings_step s).2.ratings = s.ratings ∧
    (export_ratings_step s).2.evaluation_data = s.evaluation_data ∧
    (export_ratings_step s).2.rater_name = s.rater_name :=
  ⟨rfl, rfl, rfl, rfl, rfl, rfl⟩

/-- Key list of a dict assignment: unchanged when the key is already
present, the new key appended otherwise. -/
theorem keys_insertRating (m : List (String × RatingRecord)) (k : String)
    (v : RatingRecord) :
    (insertRating m k v).map Prod.fst =
      if k ∈ m.map Prod.fst then m.map Prod.fst else m.map Prod.fst ++ [k] := by
  unfold insertRating
  by_cases h : k ∈ m.map Prod.fst
  · rw [if_pos h]
    have hany : (m.any fun p => p.1 = k) = true := by
      rw [List.any_eq_true]
      obtain ⟨p, hp, hpk⟩ := List.mem_map.mp h
      exact ⟨p, hp, by simp [hpk]⟩
    rw [if_pos hany, List.map_map]
    refine List.map_congr_left fun p _ => ?_
    by_cases hpk : p.1 = k
    · simp [Function.comp, hpk]
    · simp [Function.comp, hpk]
  · rw [if_neg h]
    have hany : (m.any fun p => p.1 = k) = false := by
      rw [Bool.eq_false_iff]
      intro hc
      rw [List.any_eq_true] at hc
      obtain ⟨p, hp, hpk⟩ := hc
      exact h (List.mem_map.mpr ⟨p, hp, by simpa using hpk⟩)
    rw [if_neg (by simp [hany]), List.map_append]
    rfl

/-- Dict assignment preserves distinctness of the keys. -/
theorem nodup_keys_insertRating (m : List (String × RatingRecord)) (k : String)
    (v : RatingRecord) (h : (m.map Prod.fst).Nodup) :
    ((insertRating m k v).map Prod.fst).Nodup := by
  rw [keys_insertRating]
  by_cases hk : k ∈ m.map Prod.fst
  · rwa [if_pos hk]
  · rw [if_neg hk]
    simp [List.nodup_append, h, hk]

/-- Folding dict assignments keeps the keys distinct and within the initial
keys plus the assigned keys. -/
theorem foldl_insertRating_keys (calls : List (String × RatingRecord)) :
    ∀ m : List (String × RatingRecord), (m.map Prod.fst).Nodup →
      ((calls.foldl (fun acc c => insertRating acc c.1 c.2) m).map
          Prod.fst).Nodup ∧
      (calls.foldl (fun acc c => insertRating acc c.1 c.2) m).map Prod.fst
        ⊆ m.map Prod.fst ++ calls.map Prod.fst := by
  induction calls with
  | nil =>
      intro m h
      exact ⟨h, by simp⟩
  | cons c rest ih =>
      intro m h
      have h1 := nodup_keys_insertRating m c.1 c.2 h
      obtain ⟨hn, hsub⟩ := ih (insertRating m c.1 c.2) h1
      rw [List.foldl_cons]
      refine ⟨hn, fun x hx => ?_⟩
      have hx2 := hsub hx
      rw [List.mem_append] at hx2
      rcases hx2 with hx2 | hx2
      · rw [keys_insertRating] at hx2
        by_cases hk : c.1 ∈ m.map Prod.fst
        · rw [if_pos hk] at hx2
          simp [List.mem_append, hx2]
        · rw [if_neg hk] at hx2
          rw [List.mem_append] at hx2
          rcases hx2 with hx2 | hx2
          · simp [List.mem_append, hx2]
          · simp only [List.mem_singleton] at hx2
            simp [hx2]
      · simp [List.mem_append, hx2]

/-- Assigning to a key twice equals assigning the later record once. -/
theorem insertRating_overwrite (m : List (String × RatingRecord)) (k : String)
    (v w : RatingRecord) :
    insertRating (insertRating m k v) k w = insertRating m k w := by
  unfold insertRating
  by_cases hany : (m.any fun p => p.1 = k) = true
  · rw [if_pos hany]
    have h2 : ((m.map fun p => if p.1 = k then (k, v) else p).any
        fun p => p.1 = k) = true := by
      rw [List.any_eq_true] at hany ⊢
      obtain ⟨p, hp, hpk⟩ := hany
      refine ⟨if p.1 = k then (k, v) else p, List.mem_map.mpr ⟨p, hp, rfl⟩, ?_⟩
      simp only [decide_eq_true_eq] at hpk
      simp [hpk]
    rw [if_pos h2, if_pos hany, List.map_map]
    refine List.map_congr_left fun p _ => ?_
    by_cases hpk : p.1 = k
    · simp [Function.comp, hpk]
    · simp [Function.comp, hpk]
  · rw [if_neg hany, if_neg hany]
    have h2 : ((m ++ [(k, v)]).any fun p => p.1 = k) = true := by
      rw [List.any_eq_true]
      exact ⟨(k, v), by simp, by simp⟩
    rw [if_pos h2, List.map_append]
    have hm : (m.map fun p => if p.1 = k then (k, w) else p) = m := by
      conv_rhs => rw [← List.map_id m]
      refine List.map_congr_left fun p hp => ?_
      have hpk : ¬p.1 = k := by
        intro hc
        exact hany (List.any_eq_true.mpr ⟨p, hp, by simp [hc]⟩)
      simp [hpk]
    rw [hm]
    simp

/-- Claim C7: the ratings dict built by any sequence of save calls from a fresh
session never has more entries than there are distinct story_ids among the
calls, and re-recording a story_id overwrites the existing entry (two
assignments to the same key collapse to the later one). -/
theorem C7_record_overwrites (calls : List (String × RatingRecord)) :
    (ratingsAfter calls).length ≤ ((calls.map Prod.fst).dedup).length ∧
    ∀ (m : List (String × RatingRecord)) (k : String) (v w : RatingRecord),
      insertRating (insertRating m k v) k w = insertRating m k w := by
  refine ⟨?_, insertRating_overwrite⟩
  obtain ⟨hn, hsub⟩ := foldl_insertRating_keys calls [] (by simp)
  have hsub2 : (ratingsAfter calls).map Prod.fst ⊆ calls.map Prod.fst := by
    simpa [ratingsAfter] using hsub
  have hn2 : ((ratingsAfter calls).map Prod.fst).Nodup := by
    simpa [ratingsAfter] using hn
  have hlen : (ratingsAfter calls).length
      = ((ratingsAfter calls).map Prod.fst).length := (List.length_map _ _).symm
  rw [hlen, ← List.toFinset_card_of_nodup hn2, ← List.card_toFinset]
  exact Finset.card_le_card fun x hx => by
    rw [List.mem_toFinset] at hx ⊢
    exact hsub2 hx

/-- Claim C8: loading a payload whose stories sequence is empty from a session at
index 0 sets the dataset, keeps current_idx at 0, and the next render
reports the empty-dataset state (the "No stories found in data" error)
without entering browsing. -/
theorem C8_empty_dataset (s : SessionState) (d : Json)
    (hs : storiesOf d = some []) (h0 : s.current_idx = 0) :
    (runMain (load_evaluation_data s (some d)).2 .idle).1 = .emptyDataset ∧
    (runMain (load_evaluation_data s (some d)).2 .idle).2.current_idx = 0 ∧
    (load_evaluation_data s (some d)).2.evaluation_data = some d ∧
    ∀ sid, (runMain (load_evaluation_data s (some d)).2 .idle).1
      ≠ .browsing sid := by
  unfold runMain load_evaluation_data
  simp [hs, h0]

/-- Claim C8 witness: the concrete empty payload loaded into a fresh session. -/
theorem C8_empty_dataset_witness :
    (runMain (load_evaluation_data initialState
        (some (Json.obj [("stories", Json.arr [])]))).2 .idle).1
      = .emptyDataset ∧
    (runMain (load_evaluation_data initialState
        (some (Json.obj [("stories", Json.arr [])]))).2 .idle).2.current_idx
      = 0 := by
  have h := C8_empty_dataset initialState
    (Json.obj [("stories", Json.arr [])]) rfl rfl
  exact ⟨h.1, h.2.1⟩

/-- Claim C4: with a dataset of N stories loaded and the current story readable,
a save click records the form's rating under the current story_id and then
advances current_idx by exactly 1 when the index is below N-1, and leaves it
unchanged at N-1 (no wraparound past the last item). -/
theorem C4_save (s : SessionState) (d story a : Json) (rest : List Json)
    (sid : String) (form : FormInput)
    (hl : s.stories_loaded = true)
    (hd : s.evaluation_data = some d)
    (hs : storiesOf d = some (a :: rest))
    (hget : (a :: rest).get? s.current_idx = some story)
    (hid : storyIdOf story = some sid) :
    (runMain s (.save form)).2.ratings
      = insertRating s.ratings sid (render_rating_form form) ∧
    (runMain s (.save form)).2.current_idx
      = (if s.current_idx < rest.length then s.current_idx + 1
         else s.current_idx) ∧
    (runMain s (.save form)).1 = .browsing sid := by
  unfold runMain
  simp only [hl, hd, hs, hget, hid, if_true]
  split <;> simp_all
  rw [if_neg (by omega)]

/-- Claim C4 witness: saving at index 0 of the two-story dataset records the
rating for "S1" and advances to index 1. -/
theorem C4_save_witness :
    (runMain (load_evaluation_data initialState (some twoStoryPayload)).2
        (.save {})).2.current_idx = 1 ∧
    (runMain (load_evaluation_data initialState (some twoStoryPayload)).2
        (.save {})).2.ratings
      = insertRating [] "S1" (render_rating_form {}) := by
  have h := C4_save
    (load_evaluation_data initialState (some twoStoryPayload)).2
    twoStoryPayload exampleStory exampleStory [storyS2] "S1" {}
    rfl rfl rfl rfl rfl
  refine ⟨?_, h.1⟩
  rw [h.2.1]
  rfl

/-- Rendering after a prev click leaves the state at the clamped decrement
regardless of what the current story looks like. -/
theorem runMain_prev_state (s : SessionState) (d a : Json) (rest : List Json)
    (hl : s.stories_loaded = true)
    (hd : s.evaluation_data = some d)
    (hs : storiesOf d = some (a :: rest)) :
    (runMain s .prev).2 = prevClick s := by
  unfold runMain
  simp only [hl, hd, hs, if_true]
  split <;> (first | rfl | (split <;> rfl))

/-- Rendering after a next click leaves the state at the clamped increment
regardless of what the current story looks like. -/
theorem runMain_next_state (s : SessionState) (d a : Json) (rest : List Json)
    (hl : s.stories_loaded = true)
    (hd : s.evaluation_data = some d)
    (hs : storiesOf d = some (a :: rest)) :
    (runMain s .next).2 = nextClick s (a :: rest).length := by
  unfold runMain
  simp only [hl, hd, hs, if_true]
  split <;> (first | rfl | (split <;> rfl))

/-- Navigation clicks only move the index: the loaded flag, the dataset and
the ratings dict are untouched (prev). -/
theorem prevClick_fields (s : SessionState) :
    (prevClick s).stories_loaded = s.stories_loaded ∧
    (prevClick s).evaluation_data = s.evaluation_data ∧
    (prevClick s).ratings = s.ratings := by
  unfold prevClick
  split <;> exact ⟨rfl, rfl, rfl⟩

/-- Navigation clicks only move the index: the loaded flag, the dataset and
the ratings dict are untouched (next). -/
theorem nextClick_fields (s : SessionState) (t : Nat) :
    (nextClick s t).stories_loaded = s.stories_loaded ∧
    (nextClick s t).evaluation_data = s.evaluation_data ∧
    (nextClick s t).ratings = s.ratings := by
  unfold nextClick
  split <;> exact ⟨rfl, rfl, rfl⟩

/-- Index after a next click: incremented below the last index, unchanged
otherwise. -/
theorem nextClick_idx (s : SessionState) (t : Nat) :
    (nextClick s t).current_idx =
      if s.current_idx < t - 1 then s.current_idx + 1 else s.current_idx := by
  unfold nextClick
  split <;> simp_all

/-- Iterating next clicks from an in-range index: the index climbs by one
per click and saturates at the last index, with the loaded dataset
untouched. -/
theorem nextEvent_iterate (d a : Json) (rest : List Json) (k : Nat) :
    ∀ s : SessionState, s.stories_loaded = true → s.evaluation_data = some d →
      storiesOf d = some (a :: rest) → s.current_idx ≤ rest.length →
      (nextEvent^[k] s).current_idx = min (s.current_idx + k) rest.length ∧
      (nextEvent^[k] s).stories_loaded = true ∧
      (nextEvent^[k] s).evaluation_data = some d ∧
      (nextEvent^[k] s).current_idx ≤ rest.length := by
  induction k with
  | zero =>
      intro s hl hd _ hle
      simp only [Function.iterate_zero, id_eq]
      exact ⟨by omega, hl, hd, hle⟩
  | succ k ih =>
      intro s hl hd hs hle
      rw [Function.iterate_succ_apply]
      have hstep : nextEvent s = nextClick s (a :: rest).length := by
        unfold nextEvent
        exact runMain_next_state s d a rest hl hd hs
      have hf := nextClick_fields s (a :: rest).length
      have hi := nextClick_idx s (a :: rest).length
      have hle' : (nextEvent s).current_idx ≤ rest.length := by
        rw [hstep, hi]
        simp only [List.length_cons, Nat.add_sub_cancel]
        split <;> omega
      obtain ⟨h1, h2, h3, h4⟩ := ih (nextEvent s)
        (by rw [hstep, hf.1, hl]) (by rw [hstep, hf.2.1, hd]) hs hle'
      refine ⟨?_, h2, h3, h4⟩
      rw [h1, hstep, hi]
      simp only [List.length_cons, Nat.add_sub_cancel]
      split <;> omega

/-- With every story carrying a story_id and the index in range, rendering
after a prev click shows a story (no crash). -/
theorem runMain_prev_render (s : SessionState) (d a : Json) (rest : List Json)
    (hl : s.stories_loaded = true) (hd : s.evaluation_data = some d)
    (hs : storiesOf d = some (a :: rest))
    (hids : ∀ st ∈ a :: rest, (storyIdOf st).isSome = true)
    (hidx : s.current_idx ≤ rest.length) :
    ∃ sid, runMain s .prev = (.browsing sid, prevClick s) := by
  have hidx' : (prevClick s).current_idx < (a :: rest).length := by
    unfold prevClick
    split <;> simp <;> omega
  obtain ⟨st, hst⟩ : ∃ st,
      (a :: rest).get? (prevClick s).current_idx = some st :=
    ⟨_, List.get?_eq_get hidx'⟩
  obtain ⟨sid, hsid⟩ := Option.isSome_iff_exists.mp (hids st (List.get?_mem hst))
  refine ⟨sid, ?_⟩
  unfold runMain
  simp only [hl, hd, hs, if_true, hst, hsid]

/-- With every story carrying a story_id and the index in range, rendering
after a next click shows a story (no crash). -/
theorem runMain_next_render (s : SessionState) (d a : Json) (rest : List Json)
    (hl : s.stories_loaded = true) (hd : s.evaluation_data = some d)
    (hs : storiesOf d = some (a :: rest))
    (hids : ∀ st ∈ a :: rest, (storyIdOf st).isSome = true)
    (hidx : s.current_idx ≤ rest.length) :
    ∃ sid, runMain s .next = (.browsing sid, nextClick s (a :: rest).length) := by
  have hidx' : (nextClick s (a :: rest).length).current_idx
      < (a :: rest).length := by
    rw [nextClick_idx]
    simp only [List.length_cons, Nat.add_sub_cancel]
    split <;> omega
  obtain ⟨st, hst⟩ : ∃ st,
      (a :: rest).get? (nextClick s (a :: rest).length).current_idx
        = some st :=
    ⟨_, List.get?_eq_get hidx'⟩
  obtain ⟨sid, hsid⟩ := Option.isSome_iff_exists.mp (hids st (List.get?_mem hst))
  refine ⟨sid, ?_⟩
  unfold runMain
  simp only [hl, hd, hs, if_true, hst, hsid]

/-- Claim C5: for a loaded dataset of N = rest.length + 1 stories (each with a
story_id) starting at index 0, a prev click is a no-op leaving the state
unchanged, N-1 next clicks reach index N-1, every further next click is a
no-op on the whole state, and navigation at either end renders a story
rather than raising an error. -/
theorem C5_navigation (s : SessionState) (d a : Json) (rest : List Json)
    (hl : s.stories_loaded = true) (hd : s.evaluation_data = some d)
    (hs : storiesOf d = some (a :: rest))
    (hids : ∀ st ∈ a :: rest, (storyIdOf st).isSome = true)
    (h0 : s.current_idx = 0) :
    (runMain s .prev).2 = s ∧
    (nextEvent^[rest.length] s).current_idx = rest.length ∧
    (∀ k, nextEvent (nextEvent^[rest.length + k] s)
      = nextEvent^[rest.length + k] s) ∧
    (∀ k, ∃ sid, (runMain (nextEvent^[k] s) .next).1 = .browsing sid) ∧
    (∃ sid, (runMain s .prev).1 = .browsing sid) := by
  have h0le : s.current_idx ≤ rest.length := by omega
  have hprev : (runMain s .prev).2 = prevClick s :=
    runMain_prev_state s d a rest hl hd hs
  refine ⟨?_, ?_, ?_, ?_, ?_⟩
  · rw [hprev]
    simp [prevClick, h0]
  · obtain ⟨h1, _, _, _⟩ :=
      nextEvent_iterate d a rest rest.length s hl hd hs h0le
    rw [h1, h0]
    omega
  · intro k
    obtain ⟨h1, h2, h3, h4⟩ :=
      nextEvent_iterate d a rest (rest.length + k) s hl hd hs h0le
    have hstep : nextEvent (nextEvent^[rest.length + k] s)
        = nextClick (nextEvent^[rest.length + k] s) (a :: rest).length := by
      unfold nextEvent
      exact runMain_next_state _ d a rest h2 h3 hs
    rw [hstep]
    unfold nextClick
    rw [if_neg]
    simp only [List.length_cons, Nat.add_sub_cancel, h1, h0]
    omega
  · intro k
    obtain ⟨h1, h2, h3, h4⟩ := nextEvent_iterate d a rest k s hl hd hs h0le
    obtain ⟨sid, hsid⟩ := runMain_next_render _ d a rest h2 h3 hs hids h4
    exact ⟨sid, by rw [hsid]⟩
  · obtain ⟨sid, hsid⟩ := runMain_prev_render s d a rest hl hd hs hids h0le
    exact ⟨sid, by rw [hsid]⟩

/-- Claim C5 witness: the two-story dataset freshly loaded — a prev click leaves
the state unchanged and one next click reaches the last index 1. -/
theorem C5_navigation_witness :
    (runMain (load_evaluation_data initialState (some twoStoryPayload)).2
        .prev).2
      = (load_evaluation_data initialState (some twoStoryPayload)).2 ∧
    (nextEvent^[1] (load_evaluation_data initialState
        (some twoStoryPayload)).2).current_idx = 1 := by
  have h := C5_navigation
    (load_evaluation_data initialState (some twoStoryPayload)).2
    twoStoryPayload exampleStory [storyS2] rfl rfl rfl (by decide) rfl
  exact ⟨h.1, h.2.1⟩

end StorySense
